import Mathlib

/-!
Shallow embedding of the transactional-outbox subsystem of the
software-architecture-playground repository.

The embedding covers:
 * the CDC relay (`debeziumHandler`, `extractOutbox`, `callWebhook` and the
   mark-published SQL update it executes),
 * the Kafka-consumer relay variant (loop body of `cmd/relay/main.go`),
 * the order producer (`createOrderHandler`), and
 * the webhook consumer (`finishOrderHandler` with gin body binding).

Modelling conventions:
 * JSON values decoded by Go's `encoding/json` into `interface\x7b\x7d` are
   modelled by the inductive `Json`; JSON numbers (Go `float64`) are modelled
   as integers, which covers every id and timestamp the code inspects, and the
   constructor `Json.arrObj` stands for any nested array or object value (the
   Go type assertions `.(float64)` / `.(string)` fail on those exactly as on a
   value of another scalar type).
 * The external library calls `json.Unmarshal` (for the opaque payload string)
   and `time.Parse` are passed in as oracle functions `String -> Option _`;
   `none` is the library reporting an error.
 * Go's zero `time.Time` is modelled as `none : Option Int`; an assigned
   timestamp is `some` nanoseconds.
 * SQL tables are lists of row structures; an `UPDATE` maps over the list and
   reports the number of matched rows as `rows_affected`.
 * A handler is a pure function from its request plus the outcome of each
   external effect (sink response, database availability) to the response it
   writes and the trace of effects it performs.
-/

/-- A decoded JSON value as produced by Go's `encoding/json` into
`map[string]interface\x7b\x7d` / `interface\x7b\x7d`. -/
inductive Json where
  | null
  | bool (b : Bool)
  | num (n : Int)
  | str (s : String)
  | arrObj
deriving Repr, DecidableEq

/-- Go map lookup `data[key]` on a decoded JSON object. -/
def lookupField (data : List (String × Json)) (key : String) : Option Json :=
  match data with
  | [] => none
  | (k, v) :: rest => if k = key then some v else lookupField rest key

/-- The relay's `Outbox` struct (src/unnamed/part_004 lines 190-197).
`createdAt = none` is Go's zero `time.Time`. -/
structure Outbox where
  id : Int
  aggregateId : String
  payload : String
  status : String
  createdAt : Option Int
  publishedAt : Option Int := none
deriving Repr, DecidableEq

/-- `extractOutbox` (src/unnamed/part_004 lines 351-392): field-by-field
extraction from the change record's decoded "after" map.  `parseRFC3339` is
the `time.Parse(time.RFC3339, _)` oracle; `none` is a parse error, in which
case the code leaves `CreatedAt` at its zero value.  A numeric `created_at`
is epoch milliseconds, converted by `time.Unix(0, ms * Millisecond)` to
nanoseconds. -/
def extractOutbox (parseRFC3339 : String → Option Int)
    (data : List (String × Json)) : Except String Outbox :=
  match lookupField data "id" with
  | some (Json.num id) =>
    match lookupField data "aggregate_id" with
    | some (Json.str aggId) =>
      match lookupField data "payload" with
      | some (Json.str payload) =>
        match lookupField data "status" with
        | some (Json.str status) =>
          let createdAt : Option Int :=
            match lookupField data "created_at" with
            | some (Json.num ms) => some (ms * 1000000)
            | some (Json.str s) => parseRFC3339 s
            | _ => none
          Except.ok { id := id, aggregateId := aggId, payload := payload,
                      status := status, createdAt := createdAt }
        | _ => Except.error "missing or invalid status"
      | _ => Except.error "missing or invalid payload"
    | _ => Except.error "missing or invalid aggregate_id"
  | _ => Except.error "missing or invalid id"

/-- Whether an optional JSON value is a number (a Go `.(float64)` assertion
succeeds on it). -/
def isNumVal : Option Json → Bool
  | some (Json.num _) => true
  | _ => false

/-- Whether an optional JSON value is a string (a Go `.(string)` assertion
succeeds on it). -/
def isStrVal : Option Json → Bool
  | some (Json.str _) => true
  | _ => false

/-- The four field checks `extractOutbox` requires: id is a number and
aggregate_id, payload, status are strings. -/
def requiredFieldsOk (data : List (String × Json)) : Bool :=
  isNumVal (lookupField data "id") &&
  isStrVal (lookupField data "aggregate_id") &&
  isStrVal (lookupField data "payload") &&
  isStrVal (lookupField data "status")

/-- Outcome of one HTTP request to the delivery sink: a transport-level
failure (connection error or client timeout), or a response with a numeric
status code and a body. -/
inductive SinkResponse where
  | netError
  | status (code : Nat) (body : String)
deriving Repr, DecidableEq

/-- `RelayServer.callWebhook` (src/unnamed/part_004 lines 319-349): POSTs
`\x7b"order_id": orderId, "status": statusArg\x7d` and treats any response
outside `[200, 300)` as an error. -/
def callWebhook (orderId : Int) (statusArg : String) (resp : SinkResponse) :
    Except String Unit :=
  match resp with
  | SinkResponse.netError => Except.error "failed to call webhook"
  | SinkResponse.status code body =>
    if code < 200 ∨ 300 ≤ code then
      Except.error ("webhook returned status " ++ toString code ++ ": " ++ body)
    else
      Except.ok ()

/-- A decoded Debezium change event (src/unnamed/part_004 lines 167-174),
restricted to the fields the handler reads: the operation tag and the decoded
"after" map (`none` when the JSON field is absent or null, i.e. the Go map is
nil). -/
structure DebeziumChange where
  after : Option (List (String × Json))
  op : String
deriving Repr, DecidableEq

/-- The HTTP response `debeziumHandler` writes. -/
inductive HandlerResult where
  | badRequest (msg : String)
  | skipped
  | processed (outboxId orderId : Int)
  | serverError (msg : String)
  | panicked
deriving Repr, DecidableEq

/-- Observable behaviour of one `debeziumHandler` invocation: the response,
the outbox record for which a delivery was attempted (the `callWebhook` call,
if the pipeline reached it), and the ids on which the mark-published UPDATE
was executed. -/
structure HandlerEffects where
  result : HandlerResult
  attempt : Option Outbox
  dbUpdates : List Int
deriving Repr, DecidableEq

/-- `debeziumHandler` (src/unnamed/part_004 lines 242-317).
`decodePayload` is the `json.Unmarshal` oracle for the opaque payload string
(`none` = not a valid JSON object);
`body` is the decoded request body (`none` = top-level unmarshal failed);
`sink` is the webhook's response; `dbOk` is whether the UPDATE succeeds.
The `HandlerResult.panicked` arm is the unchecked type assertion
`payload["id"].(float64)` on line 290 faulting at runtime. -/
def debeziumHandler (decodePayload : String → Option (List (String × Json)))
    (parseRFC3339 : String → Option Int)
    (body : Option DebeziumChange) (sink : SinkResponse) (dbOk : Bool) :
    HandlerEffects :=
  match body with
  | none => ⟨HandlerResult.badRequest "invalid json", none, []⟩
  | some change =>
    if change.op ≠ "c" ∧ change.op ≠ "u" then
      ⟨HandlerResult.skipped, none, []⟩
    else
      match change.after with
      | none => ⟨HandlerResult.skipped, none, []⟩
      | some data =>
        match extractOutbox parseRFC3339 data with
        | Except.error e =>
          ⟨HandlerResult.badRequest ("failed to extract outbox: " ++ e), none, []⟩
        | Except.ok outbox =>
          match decodePayload outbox.payload with
          | none => ⟨HandlerResult.badRequest "invalid payload json", none, []⟩
          | some payload =>
            match lookupField payload "id" with
            | some (Json.num orderId) =>
              match callWebhook orderId "finished" sink with
              | Except.error _ =>
                ⟨HandlerResult.serverError "webhook call failed", some outbox, []⟩
              | Except.ok _ =>
                if dbOk then
                  ⟨HandlerResult.processed outbox.id orderId, some outbox, [outbox.id]⟩
                else
                  ⟨HandlerResult.serverError "failed to mark published", some outbox, []⟩
            | _ => ⟨HandlerResult.panicked, none, []⟩

/-- A persisted row of the `outbox` table
(outbox-pattern/migrations/001_init_schema.sql). -/
structure OutboxTableRow where
  id : Int
  aggregateId : String
  payload : String
  status : String
  createdAt : Int
  publishedAt : Option Int
deriving Repr, DecidableEq

/-- The mark-published statement the relay executes
(src/unnamed/part_004 lines 301-304, likewise
outbox-pattern/cmd/relay/main.go line 127):
`UPDATE outbox SET status = 'published', published_at = NOW() WHERE id = $1`.
Returns the updated table and `rows_affected` (rows matched by the WHERE
clause). -/
def markPublished (now rowId : Int) (table : List OutboxTableRow) :
    List OutboxTableRow × Nat :=
  (table.map fun r =>
     if r.id = rowId then { r with status := "published", publishedAt := some now }
     else r,
   (table.filter fun r => r.id = rowId).length)

/-- Modelled from the spec: the Status Store contract of spec section 4.5,
`UPDATE ... WHERE id = ? AND status = 'pending'` — the conditional form the
spec prescribes, for comparison with `markPublished`, which is what the code
executes. -/
def markPublishedConditional (now rowId : Int) (table : List OutboxTableRow) :
    List OutboxTableRow × Nat :=
  (table.map fun r =>
     if r.id = rowId ∧ r.status = "pending" then
       { r with status := "published", publishedAt := some now }
     else r,
   (table.filter fun r => r.id = rowId ∧ r.status = "pending").length)

/-- Apply the trace of mark-published updates a handler executed to a table
state. -/
def applyUpdates (now : Int) (upds : List Int) (table : List OutboxTableRow) :
    List OutboxTableRow :=
  upds.foldl (fun t i => (markPublished now i t).1) table

/-- One dispatch input: a decoded change event together with the sink response
and database availability its processing will observe. -/
structure DispatchInput where
  change : DebeziumChange
  sink : SinkResponse
  dbOk : Bool

/-- The sequence of delivery attempts the relay makes over a sequence of
arriving change events, in arrival order: the server installs no queueing,
sorting or per-aggregate sequencing of its own (the `RelayServer` mutex,
src/unnamed/part_004 line 202, is never locked), so each request is processed
as it comes. -/
def relayDeliverySequence (decodePayload : String → Option (List (String × Json)))
    (parseRFC3339 : String → Option Int) (batch : List DispatchInput) :
    List Outbox :=
  batch.filterMap fun x =>
    (debeziumHandler decodePayload parseRFC3339 (some x.change) x.sink x.dbOk).attempt

/-- The per-request handler effects of the relay over a sequence of arriving
change events. -/
def relayRun (decodePayload : String → Option (List (String × Json)))
    (parseRFC3339 : String → Option Int) (batch : List DispatchInput) :
    List HandlerEffects :=
  batch.map fun x =>
    debeziumHandler decodePayload parseRFC3339 (some x.change) x.sink x.dbOk

/-- The Kafka-consumer variant's typed `Outbox`
(outbox-pattern/cmd/relay/main.go lines 14-21). -/
structure KafkaOutbox where
  id : Int
  aggregateId : String
  payload : String
  status : String
  createdAt : String
  publishedAt : Option String
deriving Repr, DecidableEq

/-- The Kafka-consumer variant's decoded `DebeziumPayload`
(outbox-pattern/cmd/relay/main.go lines 47-54), restricted to the fields the
loop reads. -/
structure KafkaCDCPayload where
  before : Option KafkaOutbox
  after : Option KafkaOutbox
  op : String
deriving Repr, DecidableEq

/-- One iteration of the Kafka consumer loop after a successful unmarshal
(outbox-pattern/cmd/relay/main.go lines 110-131): only op "c" selects the
"after" image; otherwise the record is skipped (`continue`).  Returns the row
id on which the mark-published UPDATE is executed, `none` when the record is
skipped. -/
def kafkaRelayStep (m : KafkaCDCPayload) : Option Int :=
  let outbox := if m.op = "c" then m.after else none
  match outbox with
  | none => none
  | some o => some o.id

/-- The producer's `Order` struct (src/unnamed/part_001 lines 131-135).
`total_amount`, a random float the claims never inspect arithmetically, is
modelled as an integer. -/
structure Order where
  id : Int
  totalAmount : Int
  status : String
deriving Repr, DecidableEq

/-- A row the producer inserts into `outbox`: `(aggregate_id, payload,
status)` (src/unnamed/part_001 line 172). -/
structure ProducerOutboxRow where
  aggregateId : Int
  payload : String
  status : String
deriving Repr, DecidableEq

/-- The producer's database: the `orders` and `outbox` tables. -/
structure ProducerDb where
  orders : List Order
  outbox : List ProducerOutboxRow
deriving Repr, DecidableEq

/-- `json.Marshal(order)` (src/unnamed/part_001 line 166). -/
def marshalOrder (o : Order) : String :=
  "\x7b\"id\":" ++ toString o.id ++ ",\"total_amount\":" ++ toString o.totalAmount ++
  ",\"status\":\"" ++ o.status ++ "\"\x7d"

/-- The outcome of each fallible step of `createOrderHandler`, injected as
input. -/
structure CreateOrderFailures where
  beginTxFails : Bool
  insertOrderFails : Bool
  marshalFails : Bool
  insertOutboxFails : Bool
  commitFails : Bool
deriving Repr, DecidableEq

/-- `createOrderHandler` (src/unnamed/part_001 lines 146-187; the MySQL
variant src/unnamed/part_007 lines 28-74 differs only in how the new id is
obtained).  All writes go through the transaction `tx`; `database/sql`
transaction semantics make them visible only at `tx.Commit()`, so on every
early return (with or without the explicit `tx.Rollback()`) the database
state is unchanged.  `newId` is the id the insert's RETURNING clause yields;
`amount` is the random draw.  Returns the committed state and the HTTP
status. -/
def createOrderHandler (st : ProducerDb) (newId amount : Int)
    (f : CreateOrderFailures) : ProducerDb × Nat :=
  if f.beginTxFails then (st, 500)
  else if f.insertOrderFails then (st, 500)
  else if f.marshalFails then (st, 500)
  else if f.insertOutboxFails then (st, 500)
  else if f.commitFails then (st, 500)
  else
    let order : Order := ⟨newId, amount, "pending"⟩
    ({ orders := st.orders ++ [order],
       outbox := st.outbox ++ [⟨newId, marshalOrder order, "pending"⟩] }, 201)

/-- The webhook consumer's bound request
(webhook-consumer, `OrderFinishRequest`): both fields carry
`binding:"required"`. -/
structure OrderFinishRequest where
  orderID : Int
  status : String
deriving Repr, DecidableEq

/-- A row of the `orders` table as the webhook consumer sees it. -/
structure OrdersTableRow where
  id : Int
  status : String
  updatedAt : Int
deriving Repr, DecidableEq

/-- JSON decoding of the `order_id` field into the Go `int64`: a missing or
null field leaves the zero value, a value of the wrong type is an unmarshal
error. -/
def decodeOrderIdField : Option Json → Except String Int
  | some (Json.num n) => Except.ok n
  | some Json.null => Except.ok 0
  | none => Except.ok 0
  | _ => Except.error "cannot unmarshal order_id"

/-- JSON decoding of the `status` field into the Go `string`: a missing or
null field leaves the zero value, a value of the wrong type is an unmarshal
error. -/
def decodeStatusField : Option Json → Except String String
  | some (Json.str s) => Except.ok s
  | some Json.null => Except.ok ""
  | none => Except.ok ""
  | _ => Except.error "cannot unmarshal status"

/-- gin's `ShouldBindJSON` into `OrderFinishRequest`: decode both fields,
then the `binding:"required"` validator rejects any field left at its Go
zero value (0 for the int64, "" for the string). -/
def bindOrderFinishRequest (body : Option (List (String × Json))) :
    Except String OrderFinishRequest :=
  match body with
  | none => Except.error "invalid body"
  | some fields =>
    match decodeOrderIdField (lookupField fields "order_id"),
          decodeStatusField (lookupField fields "status") with
    | Except.ok n, Except.ok s =>
      if n = 0 then Except.error "OrderID is required"
      else if s = "" then Except.error "Status is required"
      else Except.ok ⟨n, s⟩
    | Except.error e, _ => Except.error e
    | Except.ok _, Except.error e => Except.error e

/-- The `UPDATE orders SET status = $1, updated_at = NOW() WHERE id = $2`
statement of the webhook consumer: updated table and rows_affected. -/
def updateOrdersRun (now : Int) (req : OrderFinishRequest)
    (orders : List OrdersTableRow) : List OrdersTableRow × Nat :=
  (orders.map fun r =>
     if r.id = req.orderID then { r with status := req.status, updatedAt := now }
     else r,
   (orders.filter fun r => r.id = req.orderID).length)

/-- The HTTP response `finishOrderHandler` writes. -/
inductive FinishResult where
  | badRequest (msg : String)
  | serverError (msg : String)
  | notFound
  | finished (orderId : Int) (status : String)
deriving Repr, DecidableEq

/-- `finishOrderHandler` (webhook consumer): binds the body, and on success
executes the orders UPDATE, answering 404 when no row matched.  Returns the
response and the resulting `orders` table. -/
def finishOrderHandler (now : Int) (body : Option (List (String × Json)))
    (dbOk : Bool) (orders : List OrdersTableRow) :
    FinishResult × List OrdersTableRow :=
  match bindOrderFinishRequest body with
  | Except.error e => (FinishResult.badRequest e, orders)
  | Except.ok req =>
    if dbOk then
      if (updateOrdersRun now req orders).2 = 0 then
        (FinishResult.notFound, (updateOrdersRun now req orders).1)
      else
        (FinishResult.finished req.orderID req.status, (updateOrdersRun now req orders).1)
    else
      (FinishResult.serverError "failed to update order", orders)

/-- Whether a `FinishResult` is the 400 response. -/
def FinishResult.isBadRequest : FinishResult → Bool
  | FinishResult.badRequest _ => true
  | _ => false

/-- Shared concrete payload-decode oracle: the payload string
`\x7b"id":42,"status":"pending"\x7d` is valid JSON decoding to an object with
fields id and status; every other string is not a valid JSON object. -/
def decodeOrder42 : String → Option (List (String × Json)) := fun s =>
  if s = "\x7b\"id\":42,\"status\":\"pending\"\x7d" then
    some [("id", Json.num 42), ("status", Json.str "pending")]
  else none

/-- The payload string `decodeOrder42` accepts. -/
def payload42 : String := "\x7b\"id\":42,\"status\":\"pending\"\x7d"

/-- Concrete payload-decode oracle for a payload with no "id" field: the
string `\x7b"status": "pending"\x7d` is valid JSON whose object lacks "id". -/
def decodeStatusOnly : String → Option (List (String × Json)) := fun s =>
  if s = "\x7b\"status\": \"pending\"\x7d" then some [("status", Json.str "pending")]
  else none

/-- Whether an `Except` is `ok`. -/
def isOkE {α β : Type} (e : Except α β) : Bool :=
  match e with
  | Except.ok _ => true
  | Except.error _ => false

/-- The `createdAt` carried by a successful extraction, `none` if extraction
failed. -/
def extractedCreatedAt (e : Except String Outbox) : Option (Option Int) :=
  match e with
  | Except.ok ob => some ob.createdAt
  | Except.error _ => none

/-- The "after" map of a change record inserting a pending outbox row with id
`i`, aggregate "order-42", payload `payload42` and created_at `ms`
milliseconds. -/
def afterRow42 (i ms : Int) : List (String × Json) :=
  [("id", Json.num i), ("aggregate_id", Json.str "order-42"),
   ("payload", Json.str payload42), ("status", Json.str "pending"),
   ("created_at", Json.num ms)]

/-- The outbox record `extractOutbox` yields from `afterRow42 i ms`. -/
def outboxRow42 (i ms : Int) : Outbox :=
  ⟨i, "order-42", payload42, "pending", some (ms * 1000000), none⟩

/-- Per-aggregate created_at ordering between two delivery attempts (the
order the spec requires for rows of one aggregate). -/
def sameAggregateCreatedAtLe (a b : Outbox) : Prop :=
  a.aggregateId = b.aggregateId → a.createdAt.getD 0 ≤ b.createdAt.getD 0

/-- Claim C1, counterexample: the mark-published statement the code executes
has no `AND status = 'pending'` condition, so after a first successful
invocation publishes the row, a second invocation still matches it by id:
`rows_affected` is 1, not the 0 the claim requires, and `published_at` is
overwritten. -/
theorem markPublished_repeat_counterexample :
    ((markPublished 5 1 [⟨1, "order-42", "\x7b\x7d", "pending", 0, none⟩]).1.map
        (fun r => r.status) = ["published"])
    ∧ (markPublished 9 1 (markPublished 5 1
        [⟨1, "order-42", "\x7b\x7d", "pending", 0, none⟩]).1).2 = 1
    ∧ ¬ (markPublished 9 1 (markPublished 5 1
        [⟨1, "order-42", "\x7b\x7d", "pending", 0, none⟩]).1).2 = 0
    ∧ (markPublished 9 1 (markPublished 5 1
        [⟨1, "order-42", "\x7b\x7d", "pending", 0, none⟩]).1).1.map
        (fun r => r.publishedAt) = [some 9] := by
  decide

/-- Claim C1 (amended): the code's mark-published update matches on id alone
(`WHERE id = $1`, no status condition): invoking it on any row whose id
matches — already published or not — affects at least that row, rewriting its
status to 'published' and overwriting published_at with the new NOW(); it is
not the 0-row no-op of the spec's conditional form. -/
theorem markPublished_matches_by_id_alone (now rowId : Int)
    (t : List OutboxTableRow) (r : OutboxTableRow)
    (hr : r ∈ t) (hid : r.id = rowId) :
    1 ≤ (markPublished now rowId t).2 ∧
    { r with status := "published", publishedAt := some now } ∈
      (markPublished now rowId t).1 := by
  constructor
  · have hf : r ∈ t.filter fun x => x.id = rowId :=
      List.mem_filter.mpr ⟨hr, by simp [hid]⟩
    have hlen := List.length_pos.mpr (List.ne_nil_of_mem hf)
    simpa [markPublished] using hlen
  · have hm := List.mem_map_of_mem (fun x : OutboxTableRow =>
      if x.id = rowId then { x with status := "published", publishedAt := some now }
      else x) hr
    simpa [markPublished, hid] using hm

/-- Concrete instantiation of `markPublished_matches_by_id_alone` on an
already-published row. -/
theorem markPublished_matches_by_id_alone_witness :
    1 ≤ (markPublished 9 1 [⟨1, "order-42", "\x7b\x7d", "published", 0, some 5⟩]).2 ∧
    ({ id := 1, aggregateId := "order-42", payload := "\x7b\x7d",
       status := "published", createdAt := 0, publishedAt := some 9 } : OutboxTableRow) ∈
      (markPublished 9 1 [⟨1, "order-42", "\x7b\x7d", "published", 0, some 5⟩]).1 :=
  markPublished_matches_by_id_alone 9 1 _
    ⟨1, "order-42", "\x7b\x7d", "published", 0, some 5⟩ (by decide) (by decide)

/-- Claim C3: a change record whose payload parses as JSON but lacks the "id"
field drives the dispatcher into the unchecked `payload["id"].(float64)`
access, a runtime fault (panic) rather than a handled error. -/
theorem debeziumHandler_missing_payload_id_panics :
    debeziumHandler decodeStatusOnly (fun _ => none)
      (some ⟨some [("id", Json.num 123), ("aggregate_id", Json.str "order-456"),
                   ("payload", Json.str "\x7b\"status\": \"pending\"\x7d"),
                   ("status", Json.str "pending")], "c"⟩)
      (SinkResponse.status 200 "") true
      = ⟨HandlerResult.panicked, none, []⟩ := by
  decide

/-- If the operation tag is neither "c" nor "u", the CDC handler skips. -/
theorem debeziumHandler_skips_of_op
    (decodePayload : String → Option (List (String × Json)))
    (parseRFC3339 : String → Option Int)
    (change : DebeziumChange) (sink : SinkResponse) (dbOk : Bool)
    (h : change.op ≠ "c" ∧ change.op ≠ "u") :
    debeziumHandler decodePayload parseRFC3339 (some change) sink dbOk
      = ⟨HandlerResult.skipped, none, []⟩ := by
  simp only [debeziumHandler]
  rw [if_pos h]

/-- If the "after" image is missing, the CDC handler skips. -/
theorem debeziumHandler_skips_of_no_after
    (decodePayload : String → Option (List (String × Json)))
    (parseRFC3339 : String → Option Int)
    (change : DebeziumChange) (sink : SinkResponse) (dbOk : Bool)
    (h : change.after = none) :
    debeziumHandler decodePayload parseRFC3339 (some change) sink dbOk
      = ⟨HandlerResult.skipped, none, []⟩ := by
  simp only [debeziumHandler]
  by_cases hop : change.op ≠ "c" ∧ change.op ≠ "u"
  · rw [if_pos hop]
  · rw [if_neg hop, h]

/-- Claim C8: both relay variants skip a record whose operation tag is delete
("d") or read ("r"), or whose "after" image is missing: no delivery call, no
status update, and processing continues with the next record. -/
theorem relays_skip_ignored_records
    (decodePayload : String → Option (List (String × Json)))
    (parseRFC3339 : String → Option Int)
    (change : DebeziumChange) (sink : SinkResponse) (dbOk : Bool)
    (m : KafkaCDCPayload)
    (h1 : change.op = "d" ∨ change.op = "r" ∨ change.after = none)
    (h2 : m.op = "d" ∨ m.op = "r" ∨ m.after = none) :
    debeziumHandler decodePayload parseRFC3339 (some change) sink dbOk
      = ⟨HandlerResult.skipped, none, []⟩
    ∧ kafkaRelayStep m = none := by
  constructor
  · rcases h1 with h | h | h
    · exact debeziumHandler_skips_of_op _ _ _ _ _ ⟨by simp [h], by simp [h]⟩
    · exact debeziumHandler_skips_of_op _ _ _ _ _ ⟨by simp [h], by simp [h]⟩
    · exact debeziumHandler_skips_of_no_after _ _ _ _ _ h
  · rcases h2 with h | h | h
    · simp [kafkaRelayStep, h]
    · simp [kafkaRelayStep, h]
    · by_cases hc : m.op = "c" <;> simp [kafkaRelayStep, h, hc]

/-- Concrete instantiation of `relays_skip_ignored_records`: a delete record
for the CDC handler and a read record for the Kafka consumer. -/
theorem relays_skip_ignored_records_witness :
    debeziumHandler (fun _ => none) (fun _ => none) (some ⟨none, "d"⟩)
      SinkResponse.netError true = ⟨HandlerResult.skipped, none, []⟩
    ∧ kafkaRelayStep ⟨none, none, "r"⟩ = none :=
  relays_skip_ignored_records _ _ _ SinkResponse.netError true _
    (Or.inl rfl) (Or.inr (Or.inl rfl))

/-- Claim C2: in `createOrderHandler` the order row and its outbox row are
written in one atomic transaction: on success (201) exactly one new order row
and exactly one new outbox row (whose aggregate_id is the new order's id) are
appended; on any failing step before commit nothing is persisted. -/
theorem createOrder_atomic (st : ProducerDb) (newId amount : Int)
    (f : CreateOrderFailures) :
    (((createOrderHandler st newId amount f).2 = 201) →
      (createOrderHandler st newId amount f).1.orders
        = st.orders ++ [⟨newId, amount, "pending"⟩] ∧
      (createOrderHandler st newId amount f).1.outbox
        = st.outbox ++ [⟨newId, marshalOrder ⟨newId, amount, "pending"⟩, "pending"⟩])
    ∧ (((createOrderHandler st newId amount f).2 ≠ 201) →
        (createOrderHandler st newId amount f).1 = st) := by
  rcases f with ⟨b1, b2, b3, b4, b5⟩
  cases b1 <;> cases b2 <;> cases b3 <;> cases b4 <;> cases b5 <;>
    simp [createOrderHandler]

/-- Concrete instantiation of `createOrder_atomic`: a run with no failing
step commits exactly the order row and its single outbox row. -/
theorem createOrder_atomic_witness :
    (createOrderHandler ⟨[], []⟩ 7 50 ⟨false, false, false, false, false⟩).1.orders
      = [⟨7, 50, "pending"⟩] ∧
    (createOrderHandler ⟨[], []⟩ 7 50 ⟨false, false, false, false, false⟩).1.outbox
      = [⟨7, marshalOrder ⟨7, 50, "pending"⟩, "pending"⟩] := by
  have h := (createOrder_atomic ⟨[], []⟩ 7 50 ⟨false, false, false, false, false⟩).1
    (by decide)
  simpa using h

/-- A true `isNumVal` check means the value is a JSON number. -/
theorem isNumVal_shape (o : Option Json) (h : isNumVal o = true) :
    ∃ n, o = some (Json.num n) := by
  cases o with
  | none => simp [isNumVal] at h
  | some j => cases j <;> simp_all [isNumVal]

/-- A true `isStrVal` check means the value is a JSON string. -/
theorem isStrVal_shape (o : Option Json) (h : isStrVal o = true) :
    ∃ s, o = some (Json.str s) := by
  cases o with
  | none => simp [isStrVal] at h
  | some j => cases j <;> simp_all [isStrVal]

/-- Claim C9: `extractOutbox` errors exactly when one of id, aggregate_id,
payload, status is absent or of the wrong JSON type; an absent, null or
unparseable created_at is never an error — extraction succeeds and the
returned record carries the zero-value timestamp. -/
theorem extractOutbox_error_characterization (parseRFC3339 : String → Option Int)
    (data : List (String × Json)) :
    (isOkE (extractOutbox parseRFC3339 data) = requiredFieldsOk data)
    ∧ (requiredFieldsOk data = true →
       (lookupField data "created_at" = none ∨
        lookupField data "created_at" = some Json.null ∨
        (∃ s, lookupField data "created_at" = some (Json.str s) ∧
              parseRFC3339 s = none)) →
       extractedCreatedAt (extractOutbox parseRFC3339 data) = some none) := by
  constructor
  · unfold extractOutbox requiredFieldsOk
    cases hid : lookupField data "id" with
    | none => simp [isOkE, isNumVal]
    | some jid =>
      cases jid <;> simp only [isNumVal, Bool.false_and, isOkE] <;> try rfl
      cases hagg : lookupField data "aggregate_id" with
      | none => simp [isOkE, isStrVal]
      | some jagg =>
        cases jagg <;> simp only [isStrVal, Bool.true_and, Bool.false_and, isOkE] <;> try rfl
        cases hpay : lookupField data "payload" with
        | none => simp [isOkE, isStrVal]
        | some jpay =>
          cases jpay <;> simp only [isStrVal, Bool.true_and, Bool.false_and, isOkE] <;> try rfl
          cases hst : lookupField data "status" with
          | none => simp [isOkE, isStrVal]
          | some jst =>
            cases jst <;> simp [isOkE, isStrVal]
  · intro hreq hca
    unfold requiredFieldsOk at hreq
    simp only [Bool.and_eq_true] at hreq
    obtain ⟨⟨⟨h1, h2⟩, h3⟩, h4⟩ := hreq
    obtain ⟨n, hid⟩ := isNumVal_shape _ h1
    obtain ⟨a, hagg⟩ := isStrVal_shape _ h2
    obtain ⟨p, hpay⟩ := isStrVal_shape _ h3
    obtain ⟨st, hst⟩ := isStrVal_shape _ h4
    unfold extractOutbox
    rw [hid, hagg, hpay, hst]
    rcases hca with h | h | ⟨s, h, hp⟩
    · simp [extractedCreatedAt, h]
    · simp [extractedCreatedAt, h]
    · simp [extractedCreatedAt, h, hp]

/-- Concrete instantiation of `extractOutbox_error_characterization`: all
required fields present, created_at an unparseable string — extraction
succeeds with the zero-value timestamp. -/
theorem extractOutbox_error_characterization_witness :
    (isOkE (extractOutbox (fun _ => none)
        [("id", Json.num 123), ("aggregate_id", Json.str "order-123"),
         ("payload", Json.str "\x7b\x7d"), ("status", Json.str "pending"),
         ("created_at", Json.str "invalid-timestamp")])
      = requiredFieldsOk
        [("id", Json.num 123), ("aggregate_id", Json.str "order-123"),
         ("payload", Json.str "\x7b\x7d"), ("status", Json.str "pending"),
         ("created_at", Json.str "invalid-timestamp")])
    ∧ extractedCreatedAt (extractOutbox (fun _ => none)
        [("id", Json.num 123), ("aggregate_id", Json.str "order-123"),
         ("payload", Json.str "\x7b\x7d"), ("status", Json.str "pending"),
         ("created_at", Json.str "invalid-timestamp")]) = some none := by
  have h := extractOutbox_error_characterization (fun _ => none)
    [("id", Json.num 123), ("aggregate_id", Json.str "order-123"),
     ("payload", Json.str "\x7b\x7d"), ("status", Json.str "pending"),
     ("created_at", Json.str "invalid-timestamp")]
  exact ⟨h.1, h.2 (by decide)
    (Or.inr (Or.inr ⟨"invalid-timestamp", by decide, rfl⟩))⟩

/-- Claim C5: for a valid insert change record of a pending row whose payload
carries "id", a 2xx sink response — the only success condition of
`callWebhook` — makes the dispatcher execute the mark-published update on
that row, after which the row's status is 'published' and its published_at
is non-null. -/
theorem debeziumHandler_2xx_publishes
    (decodePayload : String → Option (List (String × Json)))
    (parseRFC3339 : String → Option Int)
    (change : DebeziumChange) (data : List (String × Json)) (ob : Outbox)
    (payload : List (String × Json)) (orderId : Int)
    (code : Nat) (respBody : String) (table : List OutboxTableRow) (now : Int)
    (hop : change.op = "c")
    (hafter : change.after = some data)
    (hex : extractOutbox parseRFC3339 data = Except.ok ob)
    (hpend : ob.status = "pending")
    (hdec : decodePayload ob.payload = some payload)
    (hid : lookupField payload "id" = some (Json.num orderId))
    (hlo : 200 ≤ code) (hhi : code < 300) :
    debeziumHandler decodePayload parseRFC3339 (some change)
        (SinkResponse.status code respBody) true
      = ⟨HandlerResult.processed ob.id orderId, some ob, [ob.id]⟩
    ∧ ∀ r ∈ (markPublished now ob.id table).1, r.id = ob.id →
        r.status = "published" ∧ r.publishedAt = some now := by
  constructor
  · have hnot : ¬ (code < 200 ∨ 300 ≤ code) := by omega
    simp [debeziumHandler, hop, hafter, hex, hdec, hid, callWebhook, hnot]
  · intro r hr hrid
    rcases List.mem_map.mp (by simpa [markPublished] using hr) with ⟨r0, hr0, hfr⟩
    by_cases h0 : r0.id = ob.id
    · rw [← hfr]
      simp [h0]
    · rw [← hfr] at hrid
      simp [h0] at hrid

/-- Concrete instantiation of `debeziumHandler_2xx_publishes`. -/
theorem debeziumHandler_2xx_publishes_witness :
    debeziumHandler decodeOrder42 (fun _ => none)
        (some ⟨some (afterRow42 1 1000), "c"⟩) (SinkResponse.status 200 "ok") true
      = ⟨HandlerResult.processed 1 42, some (outboxRow42 1 1000), [1]⟩
    ∧ ((⟨1, "order-42", payload42, "published", 3, some 777⟩ : OutboxTableRow).status
        = "published"
       ∧ (⟨1, "order-42", payload42, "published", 3, some 777⟩ : OutboxTableRow).publishedAt
        = some 777) := by
  have h := debeziumHandler_2xx_publishes decodeOrder42 (fun _ => none)
    ⟨some (afterRow42 1 1000), "c"⟩ (afterRow42 1 1000) (outboxRow42 1 1000)
    [("id", Json.num 42), ("status", Json.str "pending")] 42 200 "ok"
    [⟨1, "order-42", payload42, "pending", 3, none⟩] 777
    rfl rfl (by rfl) (by rfl) (by rfl) (by rfl) (by decide) (by decide)
  exact ⟨h.1, h.2 ⟨1, "order-42", payload42, "published", 3, some 777⟩
    (by decide) (by decide)⟩

/-- Claim C6: when the delivery attempt fails transiently (network
error/timeout or a non-2xx response), the dispatcher performs no status
update — the outbox table is untouched, so the row stays 'pending' for the
next cycle — and the handler returns an error response rather than
faulting. -/
theorem debeziumHandler_transient_failure_no_update
    (decodePayload : String → Option (List (String × Json)))
    (parseRFC3339 : String → Option Int)
    (change : DebeziumChange) (data : List (String × Json)) (ob : Outbox)
    (payload : List (String × Json)) (orderId : Int)
    (sink : SinkResponse) (dbOk : Bool) (table : List OutboxTableRow) (now : Int)
    (hop : change.op = "c")
    (hafter : change.after = some data)
    (hex : extractOutbox parseRFC3339 data = Except.ok ob)
    (hdec : decodePayload ob.payload = some payload)
    (hid : lookupField payload "id" = some (Json.num orderId))
    (hfail : sink = SinkResponse.netError ∨
             ∃ code b, sink = SinkResponse.status code b ∧ (code < 200 ∨ 300 ≤ code)) :
    (debeziumHandler decodePayload parseRFC3339 (some change) sink dbOk).result
      = HandlerResult.serverError "webhook call failed"
    ∧ (debeziumHandler decodePayload parseRFC3339 (some change) sink dbOk).dbUpdates = []
    ∧ applyUpdates now
        (debeziumHandler decodePayload parseRFC3339 (some change) sink dbOk).dbUpdates
        table = table
    ∧ (debeziumHandler decodePayload parseRFC3339 (some change) sink dbOk).result
      ≠ HandlerResult.panicked := by
  rcases hfail with h | ⟨code, b, h, hcode⟩
  · subst h
    simp [debeziumHandler, hop, hafter, hex, hdec, hid, callWebhook, applyUpdates]
  · subst h
    simp [debeziumHandler, hop, hafter, hex, hdec, hid, callWebhook, hcode, applyUpdates]

/-- Concrete instantiation of `debeziumHandler_transient_failure_no_update`
with a 500 response. -/
theorem debeziumHandler_transient_failure_no_update_witness :
    (debeziumHandler decodeOrder42 (fun _ => none)
        (some ⟨some (afterRow42 1 1000), "c"⟩) (SinkResponse.status 500 "boom") true).result
      = HandlerResult.serverError "webhook call failed"
    ∧ (debeziumHandler decodeOrder42 (fun _ => none)
        (some ⟨some (afterRow42 1 1000), "c"⟩) (SinkResponse.status 500 "boom") true).dbUpdates
      = []
    ∧ applyUpdates 777
        (debeziumHandler decodeOrder42 (fun _ => none)
          (some ⟨some (afterRow42 1 1000), "c"⟩)
          (SinkResponse.status 500 "boom") true).dbUpdates
        [⟨1, "order-42", payload42, "pending", 3, none⟩]
      = [⟨1, "order-42", payload42, "pending", 3, none⟩]
    ∧ (debeziumHandler decodeOrder42 (fun _ => none)
        (some ⟨some (afterRow42 1 1000), "c"⟩) (SinkResponse.status 500 "boom") true).result
      ≠ HandlerResult.panicked :=
  debeziumHandler_transient_failure_no_update decodeOrder42 (fun _ => none)
    ⟨some (afterRow42 1 1000), "c"⟩ (afterRow42 1 1000) (outboxRow42 1 1000)
    [("id", Json.num 42), ("status", Json.str "pending")] 42
    (SinkResponse.status 500 "boom") true
    [⟨1, "order-42", payload42, "pending", 3, none⟩] 777
    rfl rfl (by rfl) (by rfl) (by rfl)
    (Or.inr ⟨500, "boom", rfl, by omega⟩)

/-- Claim C7: a record whose payload is not valid JSON is rejected with a 400
before any delivery call or database update, and the relay goes on to process
the remaining records unchanged. -/
theorem debeziumHandler_poison_payload_rejected
    (decodePayload : String → Option (List (String × Json)))
    (parseRFC3339 : String → Option Int)
    (change : DebeziumChange) (data : List (String × Json)) (ob : Outbox)
    (sink : SinkResponse) (dbOk : Bool) (rest : List DispatchInput)
    (hop : change.op = "c")
    (hafter : change.after = some data)
    (hex : extractOutbox parseRFC3339 data = Except.ok ob)
    (hdec : decodePayload ob.payload = none) :
    debeziumHandler decodePayload parseRFC3339 (some change) sink dbOk
      = ⟨HandlerResult.badRequest "invalid payload json", none, []⟩
    ∧ relayRun decodePayload parseRFC3339 (⟨change, sink, dbOk⟩ :: rest)
      = ⟨HandlerResult.badRequest "invalid payload json", none, []⟩
        :: relayRun decodePayload parseRFC3339 rest := by
  have h1 : debeziumHandler decodePayload parseRFC3339 (some change) sink dbOk
      = ⟨HandlerResult.badRequest "invalid payload json", none, []⟩ := by
    simp [debeziumHandler, hop, hafter, hex, hdec]
  exact ⟨h1, by simp [relayRun, h1]⟩

/-- Concrete instantiation of `debeziumHandler_poison_payload_rejected` with
the payload string "not json". -/
theorem debeziumHandler_poison_payload_rejected_witness :
    debeziumHandler (fun _ => none) (fun _ => none)
      (some ⟨some [("id", Json.num 7), ("aggregate_id", Json.str "order-7"),
                   ("payload", Json.str "not json"),
                   ("status", Json.str "pending")], "c"⟩)
      SinkResponse.netError true
      = ⟨HandlerResult.badRequest "invalid payload json", none, []⟩
    ∧ relayRun (fun _ => none) (fun _ => none)
        [⟨⟨some [("id", Json.num 7), ("aggregate_id", Json.str "order-7"),
                 ("payload", Json.str "not json"),
                 ("status", Json.str "pending")], "c"⟩, SinkResponse.netError, true⟩]
      = [⟨HandlerResult.badRequest "invalid payload json", none, []⟩] :=
  debeziumHandler_poison_payload_rejected (fun _ => none) (fun _ => none)
    ⟨some [("id", Json.num 7), ("aggregate_id", Json.str "order-7"),
           ("payload", Json.str "not json"), ("status", Json.str "pending")], "c"⟩
    [("id", Json.num 7), ("aggregate_id", Json.str "order-7"),
     ("payload", Json.str "not json"), ("status", Json.str "pending")]
    ⟨7, "order-7", "not json", "pending", none, none⟩
    SinkResponse.netError true []
    rfl rfl (by rfl) rfl

/-- Claim C4, counterexample: the dispatcher has no per-aggregate ordering
mechanism; when the change source delivers the younger record first (possible
under its at-least-once contract), the delivery attempt for the created_at=t2
row precedes the one for the t1 row of the same aggregate. -/
theorem relay_delivery_order_counterexample :
    relayDeliverySequence decodeOrder42 (fun _ => none)
      [⟨⟨some (afterRow42 2 2000), "c"⟩, SinkResponse.status 200 "", true⟩,
       ⟨⟨some (afterRow42 1 1000), "c"⟩, SinkResponse.status 200 "", true⟩]
      = [outboxRow42 2 2000, outboxRow42 1 1000]
    ∧ (outboxRow42 1 1000).aggregateId = (outboxRow42 2 2000).aggregateId
    ∧ (outboxRow42 1 1000).createdAt.getD 0 < (outboxRow42 2 2000).createdAt.getD 0 := by
  decide

/-- Claim C4 (amended): the dispatcher attempts deliveries exactly in arrival
order — it adds no reordering of its own — so any ordering relation that
holds pairwise between the arriving records' extracted outbox rows (in
particular per-aggregate created_at order, when the change source delivers in
that order) is preserved in the sequence of delivery attempts. -/
theorem relayDeliverySequence_follows_arrival_order
    (decodePayload : String → Option (List (String × Json)))
    (parseRFC3339 : String → Option Int)
    (R : Outbox → Outbox → Prop) (batch : List DispatchInput)
    (h : batch.Pairwise fun x y => ∀ a b,
      (debeziumHandler decodePayload parseRFC3339 (some x.change) x.sink x.dbOk).attempt
        = some a →
      (debeziumHandler decodePayload parseRFC3339 (some y.change) y.sink y.dbOk).attempt
        = some b →
      R a b) :
    (relayDeliverySequence decodePayload parseRFC3339 batch).Pairwise R := by
  induction batch with
  | nil => simp [relayDeliverySequence]
  | cons x xs ih =>
    rcases List.pairwise_cons.mp h with ⟨hx, hxs⟩
    have ihx := ih hxs
    simp only [relayDeliverySequence, List.filterMap_cons] at ihx ⊢
    cases hatt : (debeziumHandler decodePayload parseRFC3339 (some x.change) x.sink x.dbOk).attempt with
    | none => exact ihx
    | some a =>
      refine List.pairwise_cons.mpr ⟨?_, ihx⟩
      intro b hb
      rcases List.mem_filterMap.mp hb with ⟨y, hy, hyb⟩
      exact hx y hy a b hatt hyb

/-- Concrete instantiation of `relayDeliverySequence_follows_arrival_order`:
two same-aggregate records arriving in created_at order yield delivery
attempts in created_at order. -/
theorem relayDeliverySequence_follows_arrival_order_witness :
    (relayDeliverySequence decodeOrder42 (fun _ => none)
      [⟨⟨some (afterRow42 1 1000), "c"⟩, SinkResponse.status 200 "", true⟩,
       ⟨⟨some (afterRow42 2 2000), "c"⟩, SinkResponse.status 200 "", true⟩]).Pairwise
      sameAggregateCreatedAtLe := by
  apply relayDeliverySequence_follows_arrival_order
  refine List.pairwise_cons.mpr ⟨?_, List.pairwise_singleton _ _⟩
  intro y hy a b ha hb
  have hy' : y = ⟨⟨some (afterRow42 2 2000), "c"⟩, SinkResponse.status 200 "", true⟩ := by
    simpa using hy
  subst hy'
  have e1 : (debeziumHandler decodeOrder42 (fun _ => none)
      (some ⟨some (afterRow42 1 1000), "c"⟩) (SinkResponse.status 200 "") true).attempt
      = some (outboxRow42 1 1000) := by decide
  have e2 : (debeziumHandler decodeOrder42 (fun _ => none)
      (some ⟨some (afterRow42 2 2000), "c"⟩) (SinkResponse.status 200 "") true).attempt
      = some (outboxRow42 2 2000) := by decide
  rw [e1] at ha
  rw [e2] at hb
  injection ha with ha'
  injection hb with hb'
  subst ha'
  subst hb'
  intro hagg
  decide

/-- Under a zero or missing order_id, or a missing status, the gin binding
fails. -/
theorem bindOrderFinishRequest_rejects (fields : List (String × Json))
    (h : lookupField fields "order_id" = some (Json.num 0) ∨
         lookupField fields "order_id" = none ∨
         lookupField fields "status" = none) :
    ∃ e, bindOrderFinishRequest (some fields) = Except.error e := by
  rcases h with h | h | h
  · cases hst : decodeStatusField (lookupField fields "status") with
    | ok s =>
      exact ⟨"OrderID is required",
        by simp [bindOrderFinishRequest, h, hst, decodeOrderIdField]⟩
    | error e => exact ⟨e, by simp [bindOrderFinishRequest, h, hst, decodeOrderIdField]⟩
  · cases hst : decodeStatusField (lookupField fields "status") with
    | ok s =>
      exact ⟨"OrderID is required",
        by simp [bindOrderFinishRequest, h, hst, decodeOrderIdField]⟩
    | error e => exact ⟨e, by simp [bindOrderFinishRequest, h, hst, decodeOrderIdField]⟩
  · cases hoid : decodeOrderIdField (lookupField fields "order_id") with
    | ok n =>
      by_cases hn : n = 0
      · exact ⟨"OrderID is required",
          by simp [bindOrderFinishRequest, h, hoid, decodeStatusField, hn]⟩
      · exact ⟨"Status is required",
          by simp [bindOrderFinishRequest, h, hoid, decodeStatusField, hn]⟩
    | error e => exact ⟨e, by simp [bindOrderFinishRequest, h, hoid, decodeStatusField]⟩

/-- Claim C10: a POST /orders/finish body whose order_id is 0, or which omits
order_id or status, is answered 400 (gin's `binding:"required"` counts the
integer zero value as missing) and no database update is performed, so a
delivery with order_id 0 can never succeed at this interface. -/
theorem finishOrder_rejects_zero_or_missing (now : Int)
    (fields : List (String × Json)) (dbOk : Bool) (orders : List OrdersTableRow)
    (h : lookupField fields "order_id" = some (Json.num 0) ∨
         lookupField fields "order_id" = none ∨
         lookupField fields "status" = none) :
    ((finishOrderHandler now (some fields) dbOk orders).1.isBadRequest = true)
    ∧ (finishOrderHandler now (some fields) dbOk orders).2 = orders := by
  rcases bindOrderFinishRequest_rejects fields h with ⟨e, he⟩
  constructor
  · simp [finishOrderHandler, he, FinishResult.isBadRequest]
  · simp [finishOrderHandler, he]

/-- Concrete instantiation of `finishOrder_rejects_zero_or_missing` with
order_id 0. -/
theorem finishOrder_rejects_zero_or_missing_witness :
    ((finishOrderHandler 0
        (some [("order_id", Json.num 0), ("status", Json.str "finished")]) true
        [⟨5, "pending", 0⟩]).1.isBadRequest = true)
    ∧ (finishOrderHandler 0
        (some [("order_id", Json.num 0), ("status", Json.str "finished")]) true
        [⟨5, "pending", 0⟩]).2 = [⟨5, "pending", 0⟩] :=
  finishOrder_rejects_zero_or_missing 0 _ true _ (Or.inl (by decide))
